import Mathlib

/-!
Shallow embedding of the ignix-core Result type, error taxonomy, service
orchestrator (`BaseService`) and legacy bridge (`LegacyService`).

Modelling conventions:
* A JavaScript promise outcome is `Except Thrown α`: `Except.ok` is a
  resolved value, `Except.error` a rejection escaping to the caller.
* `Thrown` models an arbitrary thrown JavaScript value: either an
  `Error` instance (which always has a `.message` string) or any other
  value, which may or may not expose a `message` property.
* An entity id (`string | number`) is `EntityId`; template-literal
  interpolation of an id is `EntityId.render`.
* A `create`/`update` payload is `Payload`: `undefined`, `null`, or an
  object with a list of own-enumerable keys, mirroring the
  `!data || Object.keys(data).length === 0` check.
* The orchestrator methods are parameterised by the outcome of the one
  repository call they make and by the `mapToResponse` hook; `this.repo.X`
  becomes an explicit `Except Thrown _` argument.
-/

/-- An arbitrary thrown/rejected JavaScript value.  `errorInstance m` is a
value for which `instanceof Error` holds, whose `.message` is `m`; `other om`
is any non-`Error` value, with `om` its `message` property when present. -/
inductive Thrown where
  | errorInstance (message : String)
  | other (message : Option String)
deriving DecidableEq, Repr

/-- Embeds `error instanceof Error ? error.message : "Database error"`,
the expression every catch block of `BaseService` uses. -/
def Thrown.caughtMessage : Thrown → String
  | .errorInstance m => m
  | .other _ => "Database error"

/-- An entity identifier (`string | number` in the source). -/
inductive EntityId where
  | str (s : String)
  | num (n : Int)
deriving DecidableEq, Repr

/-- Template-literal rendering of an id (`${id}`). -/
def EntityId.render : EntityId → String
  | .str s => s
  | .num n => toString n

/-- The closed `ServiceError` union from `exceptions.ts`:
`DatabaseError {message, code?}`, `ValidationError {field, message}`,
`NotFoundError {message, resource, id}`. -/
inductive ServiceError where
  | database (message : String) (code : Option String)
  | validation (field : String) (message : String)
  | notFound (message : String) (resource : String) (id : EntityId)
deriving DecidableEq, Repr

/-- The `message` field every `ServiceError` variant carries. -/
def ServiceError.message : ServiceError → String
  | .database m _ => m
  | .validation _ m => m
  | .notFound m _ _ => m

/-- The discriminator string of the `type` field of a `ServiceError`. -/
def ServiceError.tag : ServiceError → String
  | .database _ _ => "database"
  | .validation _ _ => "validation"
  | .notFound _ _ _ => "not_found"

/-- Embedding of `Result<T, E>` from `result.ts`: a tagged union of
`SuccessResult {type:"success", data, message?}` and
`FailureResult {type:"failure", error, message?}`. -/
inductive Result (T E : Type) where
  | success (data : T) (message : Option String)
  | failure (error : E) (message : Option String)
deriving DecidableEq, Repr

/-- Embedding of `ok(data, message?)`: builds the Success variant; no validation.
A call site omitting the second argument passes `none`. -/
def ok {T E : Type} (data : T) (message : Option String) : Result T E :=
  Result.success data message

/-- Embedding of `fail(error, message?)`: builds the Failure variant; no validation.
A call site omitting the second argument passes `none`. -/
def fail {T E : Type} (error : E) (message : Option String) : Result T E :=
  Result.failure error message

/-- The outer optional `message` field of a `Result`. -/
def Result.outerMessage {T E : Type} : Result T E → Option String
  | .success _ m => m
  | .failure _ m => m

/-- A `try { body } catch (e) { handler }` block whose body and handler
both finish with a `return`. -/
def tryCatchE {α : Type} (body : Except Thrown α)
    (handler : Thrown → Except Thrown α) : Except Thrown α :=
  match body with
  | .ok a => .ok a
  | .error t => handler t

/-- A `create`/`update` payload: `undefined`, `null`, or an object whose
own enumerable keys are `keys`. -/
inductive Payload where
  | undef
  | null
  | obj (keys : List String)
deriving DecidableEq, Repr

/-- The guard `!data || Object.keys(data).length === 0` of
`BaseService.create`/`update` (an object is always truthy, so `!data`
holds exactly for `undefined`/`null`). -/
def Payload.isEmptyOrNullish : Payload → Bool
  | .undef => true
  | .null => true
  | .obj keys => keys.length == 0

/-- The `NotFoundError` message template
`` `${this.getResourceName()} with id ${id} not found` ``. -/
def notFoundMessage (resourceName : String) (id : EntityId) : String :=
  resourceName ++ " with id " ++ id.render ++ " not found"

namespace BaseService

/-- Embedding of `BaseService.findAll`: awaits `repo.findAll`, maps every entity
through `mapToResponse` (`Promise.all` preserves input order and rejects
with the first mapping failure), wraps in `ok`; the whole body sits in a
`try`/`catch` producing a `DatabaseError` failure. -/
def findAll {T R : Type} (repoFindAll : Except Thrown (List T))
    (mapToResponse : T → Except Thrown R) :
    Except Thrown (Result (List R) ServiceError) :=
  tryCatchE
    (do
      let entities ← repoFindAll
      let responses ← entities.mapM mapToResponse
      pure (ok responses none))
    (fun error => pure (fail (ServiceError.database error.caughtMessage none) none))

/-- Embedding of `BaseService.findById`: a `null` entity yields a `NotFoundError`
failure, otherwise the entity is mapped and wrapped in `ok`; the body sits
in a `try`/`catch` producing a `DatabaseError` failure. -/
def findById {T R : Type} (repoFindById : Except Thrown (Option T))
    (mapToResponse : T → Except Thrown R)
    (resourceName : String) (id : EntityId) :
    Except Thrown (Result (Option R) ServiceError) :=
  tryCatchE
    (do
      let entity ← repoFindById
      match entity with
      | none =>
          pure (fail (ServiceError.notFound (notFoundMessage resourceName id)
            resourceName id) none)
      | some e => do
          let response ← mapToResponse e
          pure (ok (some response) none))
    (fun error => pure (fail (ServiceError.database error.caughtMessage none) none))

/-- Embedding of `BaseService.findOne`: a `null` entity yields `ok(null)`, otherwise
the entity is mapped and wrapped in `ok`; `try`/`catch` as above. -/
def findOne {T R : Type} (repoFindOne : Except Thrown (Option T))
    (mapToResponse : T → Except Thrown R) :
    Except Thrown (Result (Option R) ServiceError) :=
  tryCatchE
    (do
      let entity ← repoFindOne
      match entity with
      | none => pure (ok none none)
      | some e => do
          let response ← mapToResponse e
          pure (ok (some response) none))
    (fun error => pure (fail (ServiceError.database error.caughtMessage none) none))

/-- Embedding of `BaseService.create`: an empty/nullish payload short-circuits with a
`ValidationError` failure before `repo.create` runs; otherwise the created
entity is mapped and wrapped in `ok`; `try`/`catch` as above. -/
def create {T R : Type} (repoCreate : Except Thrown T)
    (mapToResponse : T → Except Thrown R) (data : Payload) :
    Except Thrown (Result R ServiceError) :=
  tryCatchE
    (if data.isEmptyOrNullish then
      pure (fail (ServiceError.validation "data" "Create data cannot be empty") none)
    else do
      let entity ← repoCreate
      let response ← mapToResponse entity
      pure (ok response none))
    (fun error => pure (fail (ServiceError.database error.caughtMessage none) none))

/-- Embedding of `BaseService.update`: an empty/nullish payload short-circuits with a
`ValidationError` failure before `repo.update` runs; a `null` updated
entity yields a `NotFoundError` failure; otherwise the entity is mapped
and wrapped in `ok`; `try`/`catch` as above. -/
def update {T R : Type} (repoUpdate : Except Thrown (Option T))
    (mapToResponse : T → Except Thrown R)
    (resourceName : String) (id : EntityId) (data : Payload) :
    Except Thrown (Result R ServiceError) :=
  tryCatchE
    (if data.isEmptyOrNullish then
      pure (fail (ServiceError.validation "data" "Update data cannot be empty") none)
    else do
      let entity ← repoUpdate
      match entity with
      | none =>
          pure (fail (ServiceError.notFound (notFoundMessage resourceName id)
            resourceName id) none)
      | some e => do
          let response ← mapToResponse e
          pure (ok response none))
    (fun error => pure (fail (ServiceError.database error.caughtMessage none) none))

/-- Embedding of `BaseService.hardDelete`: a `false` repository answer yields a
`NotFoundError` failure, `true` yields `ok(true)`; `try`/`catch` as above. -/
def hardDelete (repoHardDelete : Except Thrown Bool)
    (resourceName : String) (id : EntityId) :
    Except Thrown (Result Bool ServiceError) :=
  tryCatchE
    (do
      let success ← repoHardDelete
      if !success then
        pure (fail (ServiceError.notFound (notFoundMessage resourceName id)
          resourceName id) none)
      else
        pure (ok true none))
    (fun error => pure (fail (ServiceError.database error.caughtMessage none) none))

/-- Embedding of `BaseService.softDelete`: same shape as `hardDelete` over
`repo.softDelete`. -/
def softDelete (repoSoftDelete : Except Thrown Bool)
    (resourceName : String) (id : EntityId) :
    Except Thrown (Result Bool ServiceError) :=
  tryCatchE
    (do
      let success ← repoSoftDelete
      if !success then
        pure (fail (ServiceError.notFound (notFoundMessage resourceName id)
          resourceName id) none)
      else
        pure (ok true none))
    (fun error => pure (fail (ServiceError.database error.caughtMessage none) none))

/-- Embedding of `BaseService.restore`: same shape as `hardDelete` over
`repo.restore`. -/
def restore (repoRestore : Except Thrown Bool)
    (resourceName : String) (id : EntityId) :
    Except Thrown (Result Bool ServiceError) :=
  tryCatchE
    (do
      let success ← repoRestore
      if !success then
        pure (fail (ServiceError.notFound (notFoundMessage resourceName id)
          resourceName id) none)
      else
        pure (ok true none))
    (fun error => pure (fail (ServiceError.database error.caughtMessage none) none))

/-- Embedding of `BaseService.count`: wraps `repo.count` in `ok`; `try`/`catch` as
above. -/
def count (repoCount : Except Thrown Nat) :
    Except Thrown (Result Nat ServiceError) :=
  tryCatchE
    (do
      let c ← repoCount
      pure (ok c none))
    (fun error => pure (fail (ServiceError.database error.caughtMessage none) none))

end BaseService

/-- A JavaScript value of static type `R | null | undefined`, used for the
payload of `LegacyService.update`, whose wrapped service returns
`ResponseDto | undefined` and whose own return type is `ResponseDto | null`. -/
inductive JSVal (R : Type) where
  | undef
  | null
  | val (r : R)
deriving DecidableEq, Repr

/-- JavaScript truthiness of a `JSVal`: `undefined` and `null` are falsy;
a proper value `r` is truthy unless `falsy r` (e.g. `0`, `""`, `false`). -/
def JSVal.truthy {R : Type} (falsy : R → Bool) : JSVal R → Bool
  | .undef => false
  | .null => false
  | .val r => !(falsy r)

/-!
The `LegacyService` bridge adapts a `Result`-returning service to a throw-based
contract.  Each method awaits one wrapped-service call; the methods are
parameterised by the `Result` that call resolved with.  `Except.error m`
models `throw new Error(message)` with `.message` equal to `m`; every
method throws `new Error((result.error as ServiceError).message)` on the
failure branch.
-/

namespace LegacyService

/-- Embedding of `LegacyService.findAll`: success returns `result.data`, failure throws
`new Error(result.error.message)`. -/
def findAll {R : Type} (result : Result (List R) ServiceError) :
    Except String (List R) :=
  match result with
  | .success d _ => .ok d
  | .failure e _ => .error e.message

/-- Embedding of `LegacyService.findById`: success returns `result.data`, failure
throws `new Error(result.error.message)`. -/
def findById {R : Type} (result : Result (Option R) ServiceError) :
    Except String (Option R) :=
  match result with
  | .success d _ => .ok d
  | .failure e _ => .error e.message

/-- Embedding of `LegacyService.findOne`: success returns `result.data`, failure throws
`new Error(result.error.message)`. -/
def findOne {R : Type} (result : Result (Option R) ServiceError) :
    Except String (Option R) :=
  match result with
  | .success d _ => .ok d
  | .failure e _ => .error e.message

/-- Embedding of `LegacyService.create`: success returns `result.data`, failure throws
`new Error(result.error.message)`. -/
def create {R : Type} (result : Result R ServiceError) :
    Except String R :=
  match result with
  | .success d _ => .ok d
  | .failure e _ => .error e.message

/-- Embedding of `LegacyService.update`: success returns `result.data || null` (a falsy
payload — in particular `undefined` — becomes `null`), failure throws
`new Error(result.error.message)`. -/
def update {R : Type} (falsy : R → Bool) (result : Result (JSVal R) ServiceError) :
    Except String (JSVal R) :=
  match result with
  | .success d _ => .ok (if JSVal.truthy falsy d then d else JSVal.null)
  | .failure e _ => .error e.message

/-- Embedding of `LegacyService.hardDelete`: success returns `result.data`, failure
throws `new Error(result.error.message)`. -/
def hardDelete (result : Result Bool ServiceError) : Except String Bool :=
  match result with
  | .success d _ => .ok d
  | .failure e _ => .error e.message

/-- Embedding of `LegacyService.softDelete`: success returns `result.data`, failure
throws `new Error(result.error.message)`. -/
def softDelete (result : Result Bool ServiceError) : Except String Bool :=
  match result with
  | .success d _ => .ok d
  | .failure e _ => .error e.message

/-- Embedding of `LegacyService.restore`: success returns `result.data`, failure throws
`new Error(result.error.message)`. -/
def restore (result : Result Bool ServiceError) : Except String Bool :=
  match result with
  | .success d _ => .ok d
  | .failure e _ => .error e.message

/-- Embedding of `LegacyService.count`: success returns `result.data`, failure throws
`new Error(result.error.message)`. -/
def count (result : Result Nat ServiceError) : Except String Nat :=
  match result with
  | .success d _ => .ok d
  | .failure e _ => .error e.message

end LegacyService

deriving instance DecidableEq for Except

/-- Decides that a `Result` is in the orchestrator's normal form: the outer
optional `message` field is unset and, for a failure, the error's `type` tag
is drawn from the closed set `database` / `validation` / `not_found`. -/
def Result.normalized {α : Type} : Result α ServiceError → Bool
  | .success _ m => m.isNone
  | .failure e m => m.isNone &&
      (e.tag == "database" || e.tag == "validation" || e.tag == "not_found")

/-- Decides that a promise outcome is a returned, normalized `Result` and
not a rejection escaping to the caller. -/
def normalizedOutcome {α : Type} : Except Thrown (Result α ServiceError) → Bool
  | .ok r => r.normalized
  | .error _ => false

/-- Modelled from the spec claim, for comparison with `Thrown.caughtMessage`:
the database-failure message the claim predicts, namely the thrown value's
own message whenever the thrown value carries one, and the fixed fallback
string otherwise. -/
def claimedThrownMessage : Thrown → String
  | .errorInstance m => m
  | .other (some m) => m
  | .other none => "Database error"

/-!
Theorems.  Each claim of the specification gets one theorem below;
auxiliary lemmas carry no claim id.
-/

/-- Auxiliary: when the mapping hook succeeds on every entity with value
`f e`, `mapM` over the hook succeeds with the order-preserving map. -/
theorem mapM_hook_total {T R : Type} (hook : T → Except Thrown R)
    (f : T → R) (hf : ∀ e, hook e = Except.ok (f e)) :
    ∀ entities : List T, entities.mapM hook = Except.ok (entities.map f) := by
  intro entities
  induction entities with
  | nil => rfl
  | cons a l ih =>
      rw [List.mapM_cons, hf, ih]
      rfl

/-- C9: `ok x` is the Success variant carrying `x` and `fail e` the Failure
variant carrying `e`; branching on the tag and projecting the active field
yields the wrapped value back unchanged.  Both constructors are total Lean
functions and inspect neither argument. -/
theorem ok_fail_construct_and_roundtrip {T E : Type} (x : T) (e : E)
    (m1 m2 : Option String) :
    (ok x m1 : Result T E) = Result.success x m1 ∧
    (fail e m2 : Result T E) = Result.failure e m2 ∧
    (match (ok x m1 : Result T E) with
      | Result.success d _ => some d
      | Result.failure _ _ => none) = some x ∧
    (match (fail e m2 : Result T E) with
      | Result.success _ _ => none
      | Result.failure er _ => some er) = some e :=
  ⟨rfl, rfl, rfl, rfl⟩

/-- C5: when `repo.findOne` resolves with `null`, `findOne` returns a
Success Result whose payload is `null` — never a Failure. -/
theorem findOne_absence_is_success_null {T R : Type}
    (hook : T → Except Thrown R) :
    BaseService.findOne (Except.ok (none : Option T)) hook
      = Except.ok (ok none none) := rfl

/-- C7: a Success with an `undefined` payload from the wrapped service's
`update` is normalized by the bridge to a resolved `null`, for any
falsiness behavior of proper payload values and any outer message. -/
theorem legacy_update_undefined_success_resolves_null {R : Type}
    (falsy : R → Bool) (m : Option String) :
    LegacyService.update falsy (Result.success JSVal.undef m)
      = Except.ok (JSVal.null : JSVal R) := rfl

/-- C6 counterexample: `LegacyService.update` applied to
`Success(undefined)` resolves with `null`, not with the payload
`undefined` itself, so the bridge does not resolve every Success to its
payload verbatim. -/
theorem legacy_update_success_not_verbatim :
    LegacyService.update (fun _ : Nat => false) (Result.success JSVal.undef none)
      = Except.ok (JSVal.null : JSVal Nat) ∧
    LegacyService.update (fun _ : Nat => false) (Result.success JSVal.undef none)
      ≠ Except.ok (JSVal.undef : JSVal Nat) :=
  ⟨rfl, by decide⟩

/-- C6 amended: for the eight bridge operations other than `update`, a
Success resolves with exactly the payload; `update` resolves with the
payload passed through `result.data || null` (the payload when truthy,
else `null`); and every Failure makes the bridge throw an `Error` whose
message is exactly the `ServiceError`'s own `message` field, regardless of
the Result's outer optional message — no Failure is swallowed. -/
theorem legacy_bridge_unwrap_or_throw {R : Type} (falsy : R → Bool)
    (ds : List R) (dO1 dO2 : Option R) (dR : R) (dJ : JSVal R) (b1 b2 b3 : Bool)
    (n : Nat) (e : ServiceError) (m1 m2 : Option String) :
    (LegacyService.findAll (Result.success ds m1) = Except.ok ds ∧
      LegacyService.findAll (Result.failure e m2 : Result (List R) ServiceError)
        = Except.error e.message) ∧
    (LegacyService.findById (Result.success dO1 m1) = Except.ok dO1 ∧
      LegacyService.findById (Result.failure e m2 : Result (Option R) ServiceError)
        = Except.error e.message) ∧
    (LegacyService.findOne (Result.success dO2 m1) = Except.ok dO2 ∧
      LegacyService.findOne (Result.failure e m2 : Result (Option R) ServiceError)
        = Except.error e.message) ∧
    (LegacyService.create (Result.success dR m1) = Except.ok dR ∧
      LegacyService.create (Result.failure e m2 : Result R ServiceError)
        = Except.error e.message) ∧
    (LegacyService.update falsy (Result.success dJ m1)
        = Except.ok (if JSVal.truthy falsy dJ then dJ else JSVal.null) ∧
      LegacyService.update falsy (Result.failure e m2 : Result (JSVal R) ServiceError)
        = Except.error e.message) ∧
    (LegacyService.hardDelete (Result.success b1 m1) = Except.ok b1 ∧
      LegacyService.hardDelete (Result.failure e m2) = Except.error e.message) ∧
    (LegacyService.softDelete (Result.success b2 m1) = Except.ok b2 ∧
      LegacyService.softDelete (Result.failure e m2) = Except.error e.message) ∧
    (LegacyService.restore (Result.success b3 m1) = Except.ok b3 ∧
      LegacyService.restore (Result.failure e m2) = Except.error e.message) ∧
    (LegacyService.count (Result.success n m1) = Except.ok n ∧
      LegacyService.count (Result.failure e m2) = Except.error e.message) :=
  ⟨⟨rfl, rfl⟩, ⟨rfl, rfl⟩, ⟨rfl, rfl⟩, ⟨rfl, rfl⟩, ⟨rfl, rfl⟩,
    ⟨rfl, rfl⟩, ⟨rfl, rfl⟩, ⟨rfl, rfl⟩, ⟨rfl, rfl⟩⟩

/-- C1 counterexample: with a repository resolving `[1]` and a mapping hook
that rejects with `Error("boom")`, `findAll` does not propagate the
rejection to the caller: the `try`/`catch` wrapping the awaited
`Promise.all` catches it and returns a typed Failure tagged `database`.
This refutes the claim that hook failures escape as unhandled
rejections. -/
theorem findAll_throwing_hook_returns_typed_failure :
    BaseService.findAll (Except.ok [(1 : Nat)])
        (fun _ : Nat => (Except.error (Thrown.errorInstance "boom") : Except Thrown Nat))
      = Except.ok (fail (ServiceError.database "boom" none) none) ∧
    BaseService.findAll (Except.ok [(1 : Nat)])
        (fun _ : Nat => (Except.error (Thrown.errorInstance "boom") : Except Thrown Nat))
      ≠ Except.error (Thrown.errorInstance "boom") :=
  ⟨rfl, by decide⟩

/-- C1 amended: when the mapping hook throws/rejects, the failure is caught
by the same `try`/`catch` normalization path as repository failures, and
each operation that maps (`findAll`, `findById`, `findOne`, `create`,
`update`) returns a typed Failure tagged `database` built from the thrown
value, instead of an unhandled rejection. -/
theorem mapping_hook_failure_normalized {T R : Type}
    (hook : T → Except Thrown R) (t : Thrown) (entities : List T) (e : T)
    (p : Payload) (rn : String) (i : EntityId)
    (hAll : entities.mapM hook = Except.error t)
    (hOne : hook e = Except.error t)
    (hp : p.isEmptyOrNullish = false) :
    BaseService.findAll (Except.ok entities) hook
      = Except.ok (fail (ServiceError.database t.caughtMessage none) none) ∧
    BaseService.findById (Except.ok (some e)) hook rn i
      = Except.ok (fail (ServiceError.database t.caughtMessage none) none) ∧
    BaseService.findOne (Except.ok (some e)) hook
      = Except.ok (fail (ServiceError.database t.caughtMessage none) none) ∧
    BaseService.create (Except.ok e) hook p
      = Except.ok (fail (ServiceError.database t.caughtMessage none) none) ∧
    BaseService.update (Except.ok (some e)) hook rn i p
      = Except.ok (fail (ServiceError.database t.caughtMessage none) none) := by
  refine ⟨?_, ?_, ?_, ?_, ?_⟩ <;>
    simp only [BaseService.findAll, BaseService.findById, BaseService.findOne,
      BaseService.create, BaseService.update, tryCatchE, Bind.bind, Except.bind,
      hAll, hOne, hp, Bool.false_eq_true, if_false, Functor.map, Except.map,
      pure, Except.pure]

/-- Witness for the amended C1 theorem at a concrete throwing hook. -/
theorem mapping_hook_failure_normalized_witness :
    BaseService.findAll (Except.ok [(1 : Nat)])
        (fun _ : Nat => (Except.error (Thrown.other none) : Except Thrown Nat))
      = Except.ok (fail (ServiceError.database "Database error" none) none) ∧
    BaseService.findById (Except.ok (some 1))
        (fun _ : Nat => (Except.error (Thrown.other none) : Except Thrown Nat))
        "resource" (EntityId.num 1)
      = Except.ok (fail (ServiceError.database "Database error" none) none) ∧
    BaseService.findOne (Except.ok (some 1))
        (fun _ : Nat => (Except.error (Thrown.other none) : Except Thrown Nat))
      = Except.ok (fail (ServiceError.database "Database error" none) none) ∧
    BaseService.create (Except.ok 1)
        (fun _ : Nat => (Except.error (Thrown.other none) : Except Thrown Nat))
        (Payload.obj ["name"])
      = Except.ok (fail (ServiceError.database "Database error" none) none) ∧
    BaseService.update (Except.ok (some 1))
        (fun _ : Nat => (Except.error (Thrown.other none) : Except Thrown Nat))
        "resource" (EntityId.num 1) (Payload.obj ["name"])
      = Except.ok (fail (ServiceError.database "Database error" none) none) :=
  mapping_hook_failure_normalized
    (fun _ : Nat => (Except.error (Thrown.other none) : Except Thrown Nat))
    (Thrown.other none) [1] 1 (Payload.obj ["name"]) "resource" (EntityId.num 1)
    (by rfl) (by rfl) (by rfl)

/-- C2 counterexample: a rejection with a non-`Error` value that does carry
a `message` property (`{message: "boom"}`) is normalized with the fixed
fallback string, because the code tests `instanceof Error` rather than the
presence of a message; the claimed message extraction
(`claimedThrownMessage`) disagrees with the code here. -/
theorem nonError_thrown_message_ignored :
    BaseService.count (Except.error (Thrown.other (some "boom")))
      = Except.ok (fail (ServiceError.database "Database error" none) none) ∧
    BaseService.count (Except.error (Thrown.other (some "boom")))
      ≠ Except.ok (fail
          (ServiceError.database (claimedThrownMessage (Thrown.other (some "boom"))) none)
          none) :=
  ⟨rfl, by decide⟩

/-- C2 amended: for every operation and every rejecting repository call,
the operation returns a Failure Result tagged `database` whose message is
the thrown value's message when the thrown value is an `Error` instance
and the fixed fallback string `"Database error"` otherwise; the
orchestrator never re-throws. -/
theorem repo_throw_yields_database_failure {T R : Type} (t : Thrown)
    (hook : T → Except Thrown R) (p : Payload) (rn : String) (i : EntityId)
    (hp : p.isEmptyOrNullish = false) :
    BaseService.findAll (Except.error t : Except Thrown (List T)) hook
      = Except.ok (fail (ServiceError.database t.caughtMessage none) none) ∧
    BaseService.findById (Except.error t : Except Thrown (Option T)) hook rn i
      = Except.ok (fail (ServiceError.database t.caughtMessage none) none) ∧
    BaseService.findOne (Except.error t : Except Thrown (Option T)) hook
      = Except.ok (fail (ServiceError.database t.caughtMessage none) none) ∧
    BaseService.create (Except.error t : Except Thrown T) hook p
      = Except.ok (fail (ServiceError.database t.caughtMessage none) none) ∧
    BaseService.update (Except.error t : Except Thrown (Option T)) hook rn i p
      = Except.ok (fail (ServiceError.database t.caughtMessage none) none) ∧
    BaseService.hardDelete (Except.error t) rn i
      = Except.ok (fail (ServiceError.database t.caughtMessage none) none) ∧
    BaseService.softDelete (Except.error t) rn i
      = Except.ok (fail (ServiceError.database t.caughtMessage none) none) ∧
    BaseService.restore (Except.error t) rn i
      = Except.ok (fail (ServiceError.database t.caughtMessage none) none) ∧
    BaseService.count (Except.error t)
      = Except.ok (fail (ServiceError.database t.caughtMessage none) none) := by
  refine ⟨rfl, rfl, rfl, ?_, ?_, rfl, rfl, rfl, rfl⟩ <;>
    simp only [BaseService.create, BaseService.update, tryCatchE, Bind.bind,
      Except.bind, hp, Bool.false_eq_true, if_false, Functor.map, Except.map,
      pure, Except.pure]

/-- Witness for the amended C2 theorem at a concrete `Error` rejection. -/
theorem repo_throw_yields_database_failure_witness :
    BaseService.findAll (Except.error (Thrown.errorInstance "db down") :
        Except Thrown (List Nat)) (fun n : Nat => (Except.ok n : Except Thrown Nat))
      = Except.ok (fail (ServiceError.database "db down" none) none) ∧
    BaseService.findById (Except.error (Thrown.errorInstance "db down") :
        Except Thrown (Option Nat)) (fun n : Nat => (Except.ok n : Except Thrown Nat))
        "resource" (EntityId.num 1)
      = Except.ok (fail (ServiceError.database "db down" none) none) ∧
    BaseService.findOne (Except.error (Thrown.errorInstance "db down") :
        Except Thrown (Option Nat)) (fun n : Nat => (Except.ok n : Except Thrown Nat))
      = Except.ok (fail (ServiceError.database "db down" none) none) ∧
    BaseService.create (Except.error (Thrown.errorInstance "db down") :
        Except Thrown Nat) (fun n : Nat => (Except.ok n : Except Thrown Nat))
        (Payload.obj ["name"])
      = Except.ok (fail (ServiceError.database "db down" none) none) ∧
    BaseService.update (Except.error (Thrown.errorInstance "db down") :
        Except Thrown (Option Nat)) (fun n : Nat => (Except.ok n : Except Thrown Nat))
        "resource" (EntityId.num 1) (Payload.obj ["name"])
      = Except.ok (fail (ServiceError.database "db down" none) none) ∧
    BaseService.hardDelete (Except.error (Thrown.errorInstance "db down"))
        "resource" (EntityId.num 1)
      = Except.ok (fail (ServiceError.database "db down" none) none) ∧
    BaseService.softDelete (Except.error (Thrown.errorInstance "db down"))
        "resource" (EntityId.num 1)
      = Except.ok (fail (ServiceError.database "db down" none) none) ∧
    BaseService.restore (Except.error (Thrown.errorInstance "db down"))
        "resource" (EntityId.num 1)
      = Except.ok (fail (ServiceError.database "db down" none) none) ∧
    BaseService.count (Except.error (Thrown.errorInstance "db down"))
      = Except.ok (fail (ServiceError.database "db down" none) none) :=
  repo_throw_yields_database_failure (Thrown.errorInstance "db down")
    (fun n : Nat => (Except.ok n : Except Thrown Nat)) (Payload.obj ["name"])
    "resource" (EntityId.num 1) (by rfl)

/-- C3: for `findById`, `update`, `hardDelete`, `softDelete` and `restore`,
a repository absence answer (`null` for lookups/updates, `false` for the
boolean mutations) produces a Failure tagged `not_found` carrying the
resource-name hook's result and the requested id, whose message is exactly
`<resourceName> with id <id> not found` (for `update`, provided the
payload survives the preceding emptiness check). -/
theorem absence_yields_not_found {T R : Type} (hook : T → Except Thrown R)
    (rn : String) (i : EntityId) (p : Payload)
    (hp : p.isEmptyOrNullish = false) :
    BaseService.findById (Except.ok (none : Option T)) hook rn i
      = Except.ok (fail (ServiceError.notFound
          (rn ++ " with id " ++ i.render ++ " not found") rn i) none) ∧
    BaseService.update (Except.ok (none : Option T)) hook rn i p
      = Except.ok (fail (ServiceError.notFound
          (rn ++ " with id " ++ i.render ++ " not found") rn i) none) ∧
    BaseService.hardDelete (Except.ok false) rn i
      = Except.ok (fail (ServiceError.notFound
          (rn ++ " with id " ++ i.render ++ " not found") rn i) none) ∧
    BaseService.softDelete (Except.ok false) rn i
      = Except.ok (fail (ServiceError.notFound
          (rn ++ " with id " ++ i.render ++ " not found") rn i) none) ∧
    BaseService.restore (Except.ok false) rn i
      = Except.ok (fail (ServiceError.notFound
          (rn ++ " with id " ++ i.render ++ " not found") rn i) none) := by
  refine ⟨rfl, ?_, rfl, rfl, rfl⟩
  simp only [BaseService.update, tryCatchE, Bind.bind, Except.bind, hp,
    Bool.false_eq_true, if_false, pure, Except.pure, notFoundMessage]

/-- Witness for C3 at `resourceName = "user"`, `id = 99`: the message is
the literal string `user with id 99 not found`. -/
theorem absence_yields_not_found_witness :
    BaseService.findById (Except.ok (none : Option Nat))
        (fun n : Nat => (Except.ok n : Except Thrown Nat)) "user" (EntityId.num 99)
      = Except.ok (fail (ServiceError.notFound "user with id 99 not found"
          "user" (EntityId.num 99)) none) ∧
    BaseService.update (Except.ok (none : Option Nat))
        (fun n : Nat => (Except.ok n : Except Thrown Nat)) "user" (EntityId.num 99)
        (Payload.obj ["name"])
      = Except.ok (fail (ServiceError.notFound "user with id 99 not found"
          "user" (EntityId.num 99)) none) ∧
    BaseService.hardDelete (Except.ok false) "user" (EntityId.num 99)
      = Except.ok (fail (ServiceError.notFound "user with id 99 not found"
          "user" (EntityId.num 99)) none) ∧
    BaseService.softDelete (Except.ok false) "user" (EntityId.num 99)
      = Except.ok (fail (ServiceError.notFound "user with id 99 not found"
          "user" (EntityId.num 99)) none) ∧
    BaseService.restore (Except.ok false) "user" (EntityId.num 99)
      = Except.ok (fail (ServiceError.notFound "user with id 99 not found"
          "user" (EntityId.num 99)) none) :=
  absence_yields_not_found (fun n : Nat => (Except.ok n : Except Thrown Nat))
    "user" (EntityId.num 99) (Payload.obj ["name"]) (by rfl)

/-- C4: an empty payload (an object with no keys, `null`, or `undefined`)
makes `create`/`update` return a Failure tagged `validation` with field
`data` and the operation-specific message, and the result does not depend
on the repository call's outcome — in this embedding the repository
argument being irrelevant is exactly the repository never being
invoked. -/
theorem empty_payload_rejected_before_repo {T R : Type}
    (hook : T → Except Thrown R) (repo1 repo2 : Except Thrown T)
    (repoU1 repoU2 : Except Thrown (Option T)) (rn : String) (i : EntityId)
    (p : Payload) (hp : p.isEmptyOrNullish = true) :
    BaseService.create repo1 hook p
      = Except.ok (fail (ServiceError.validation "data"
          "Create data cannot be empty") none) ∧
    BaseService.update repoU1 hook rn i p
      = Except.ok (fail (ServiceError.validation "data"
          "Update data cannot be empty") none) ∧
    BaseService.create repo1 hook p = BaseService.create repo2 hook p ∧
    BaseService.update repoU1 hook rn i p = BaseService.update repoU2 hook rn i p := by
  refine ⟨?_, ?_, ?_, ?_⟩ <;>
    simp only [BaseService.create, BaseService.update, tryCatchE, hp, if_true,
      pure, Except.pure]

/-- Witness for C4 at the empty object payload and two repositories with
observably different outcomes. -/
theorem empty_payload_rejected_before_repo_witness :
    BaseService.create (Except.ok (1 : Nat))
        (fun n : Nat => (Except.ok n : Except Thrown Nat)) (Payload.obj [])
      = Except.ok (fail (ServiceError.validation "data"
          "Create data cannot be empty") none) ∧
    BaseService.update (Except.ok (some (1 : Nat)))
        (fun n : Nat => (Except.ok n : Except Thrown Nat)) "resource"
        (EntityId.num 1) (Payload.obj [])
      = Except.ok (fail (ServiceError.validation "data"
          "Update data cannot be empty") none) ∧
    BaseService.create (Except.ok (1 : Nat))
        (fun n : Nat => (Except.ok n : Except Thrown Nat)) (Payload.obj [])
      = BaseService.create (Except.error (Thrown.errorInstance "down"))
        (fun n : Nat => (Except.ok n : Except Thrown Nat)) (Payload.obj []) ∧
    BaseService.update (Except.ok (some (1 : Nat)))
        (fun n : Nat => (Except.ok n : Except Thrown Nat)) "resource"
        (EntityId.num 1) (Payload.obj [])
      = BaseService.update (Except.error (Thrown.errorInstance "down"))
        (fun n : Nat => (Except.ok n : Except Thrown Nat)) "resource"
        (EntityId.num 1) (Payload.obj []) :=
  empty_payload_rejected_before_repo
    (fun n : Nat => (Except.ok n : Except Thrown Nat)) (Except.ok 1)
    (Except.error (Thrown.errorInstance "down")) (Except.ok (some 1))
    (Except.error (Thrown.errorInstance "down")) "resource" (EntityId.num 1)
    (Payload.obj []) (by rfl)

/-- C8: when the repository resolves with a list of entities and the
mapping hook succeeds on every entity, `findAll` returns a Success whose
payload is the hook applied elementwise in input order: the payload is
exactly `entities.map f`. -/
theorem findAll_maps_in_order {T R : Type} (entities : List T)
    (hook : T → Except Thrown R) (f : T → R)
    (hf : ∀ e, hook e = Except.ok (f e)) :
    BaseService.findAll (Except.ok entities) hook
      = Except.ok (ok (entities.map f) none) := by
  simp only [BaseService.findAll, tryCatchE, Bind.bind, Except.bind,
    mapM_hook_total hook f hf entities, Functor.map, Except.map, pure,
    Except.pure]

/-- Witness for C8 on the two-element list `[1, 2]` with hook `n ↦ n + 1`:
the payload `[2, 3]` preserves the input order. -/
theorem findAll_maps_in_order_witness :
    BaseService.findAll (Except.ok [(1 : Nat), 2])
        (fun n : Nat => (Except.ok (n + 1) : Except Thrown Nat))
      = Except.ok (ok [2, 3] none) :=
  findAll_maps_in_order [1, 2]
    (fun n : Nat => (Except.ok (n + 1) : Except Thrown Nat))
    (fun n => n + 1) (fun _ => rfl)

/-- C10: for every operation and every repository behavior (resolve or
reject) and any mapping-hook behavior, the operation returns a `Result`
(never an escaping rejection) whose outer optional message field is unset
and whose error, when the `Result` is a Failure, is tagged `database`,
`validation` or `not_found` — the property `normalizedOutcome` decides. -/
theorem operations_return_normalized_results {T R : Type}
    (repoL : Except Thrown (List T)) (repoO1 repoO2 repoO3 : Except Thrown (Option T))
    (repoT : Except Thrown T) (repoB1 repoB2 repoB3 : Except Thrown Bool)
    (repoN : Except Thrown Nat) (hook : T → Except Thrown R)
    (p1 p2 : Payload) (rn : String) (i : EntityId) :
    normalizedOutcome (BaseService.findAll repoL hook) = true ∧
    normalizedOutcome (BaseService.findById repoO1 hook rn i) = true ∧
    normalizedOutcome (BaseService.findOne repoO2 hook) = true ∧
    normalizedOutcome (BaseService.create repoT hook p1) = true ∧
    normalizedOutcome (BaseService.update repoO3 hook rn i p2) = true ∧
    normalizedOutcome (BaseService.hardDelete repoB1 rn i) = true ∧
    normalizedOutcome (BaseService.softDelete repoB2 rn i) = true ∧
    normalizedOutcome (BaseService.restore repoB3 rn i) = true ∧
    normalizedOutcome (BaseService.count repoN) = true := by
  refine ⟨?_, ?_, ?_, ?_, ?_, ?_, ?_, ?_, ?_⟩
  · cases repoL with
    | error t => rfl
    | ok es =>
        cases h : es.mapM hook with
        | error t =>
            simp only [BaseService.findAll, tryCatchE, Bind.bind, Except.bind, h,
              Functor.map, Except.map, pure, Except.pure]
            rfl
        | ok rs =>
            simp only [BaseService.findAll, tryCatchE, Bind.bind, Except.bind, h,
              Functor.map, Except.map, pure, Except.pure]
            rfl
  · cases repoO1 with
    | error t => rfl
    | ok oe =>
        cases oe with
        | none => rfl
        | some e =>
            cases h : hook e with
            | error t =>
                simp only [BaseService.findById, tryCatchE, Bind.bind, Except.bind, h,
                  Functor.map, Except.map, pure, Except.pure]
                rfl
            | ok r =>
                simp only [BaseService.findById, tryCatchE, Bind.bind, Except.bind, h,
                  Functor.map, Except.map, pure, Except.pure]
                rfl
  · cases repoO2 with
    | error t => rfl
    | ok oe =>
        cases oe with
        | none => rfl
        | some e =>
            cases h : hook e with
            | error t =>
                simp only [BaseService.findOne, tryCatchE, Bind.bind, Except.bind, h,
                  Functor.map, Except.map, pure, Except.pure]
                rfl
            | ok r =>
                simp only [BaseService.findOne, tryCatchE, Bind.bind, Except.bind, h,
                  Functor.map, Except.map, pure, Except.pure]
                rfl
  · cases hp : p1.isEmptyOrNullish with
    | true =>
        simp only [BaseService.create, tryCatchE, hp, if_true, pure, Except.pure]
        rfl
    | false =>
        cases repoT with
        | error t =>
            simp only [BaseService.create, tryCatchE, hp, Bool.false_eq_true, if_false,
              Bind.bind, Except.bind, Functor.map, Except.map, pure, Except.pure]
            rfl
        | ok e =>
            cases h : hook e with
            | error t =>
                simp only [BaseService.create, tryCatchE, hp, Bool.false_eq_true,
                  if_false, Bind.bind, Except.bind, h, Functor.map, Except.map,
                  pure, Except.pure]
                rfl
            | ok r =>
                simp only [BaseService.create, tryCatchE, hp, Bool.false_eq_true,
                  if_false, Bind.bind, Except.bind, h, Functor.map, Except.map,
                  pure, Except.pure]
                rfl
  · cases hp : p2.isEmptyOrNullish with
    | true =>
        simp only [BaseService.update, tryCatchE, hp, if_true, pure, Except.pure]
        rfl
    | false =>
        cases repoO3 with
        | error t =>
            simp only [BaseService.update, tryCatchE, hp, Bool.false_eq_true, if_false,
              Bind.bind, Except.bind, Functor.map, Except.map, pure, Except.pure]
            rfl
        | ok oe =>
            cases oe with
            | none =>
                simp only [BaseService.update, tryCatchE, hp, Bool.false_eq_true,
                  if_false, Bind.bind, Except.bind, pure, Except.pure]
                rfl
            | some e =>
                cases h : hook e with
                | error t =>
                    simp only [BaseService.update, tryCatchE, hp, Bool.false_eq_true,
                      if_false, Bind.bind, Except.bind, h, Functor.map, Except.map,
                      pure, Except.pure]
                    rfl
                | ok r =>
                    simp only [BaseService.update, tryCatchE, hp, Bool.false_eq_true,
                      if_false, Bind.bind, Except.bind, h, Functor.map, Except.map,
                      pure, Except.pure]
                    rfl
  · cases repoB1 with
    | error t => rfl
    | ok b => cases b with
      | true => rfl
      | false => rfl
  · cases repoB2 with
    | error t => rfl
    | ok b => cases b with
      | true => rfl
      | false => rfl
  · cases repoB3 with
    | error t => rfl
    | ok b => cases b with
      | true => rfl
      | false => rfl
  · cases repoN with
    | error t => rfl
    | ok n => rfl
